import Mathlib

/-!
Verification development for the halalfreshnfast online-ordering service.

Shallow embedding of the checkout server (`server.js`: Express + Square
checkout endpoint) and of the browser cart store (`cart.js`).

Modelling conventions:
- JavaScript numbers carrying money amounts, quantities and tax rates are
  modelled as rationals (they are exact at these magnitudes); `Math.round`
  becomes `jsRound` (round half toward positive infinity).  `NaN` is modelled
  explicitly where the code can actually produce it (the client-side quantity
  coercion), via `Option`.
- The two remote Square calls (create order, create payment) are modelled by
  an oracle `RemoteEnv` that supplies their responses, and the checkout
  handler becomes a pure function from the request, the oracle and an
  idempotency-key cursor to the list of remote calls issued, the terminal
  result, and the advanced cursor.  `crypto.randomUUID()` is modelled as an
  injective key supply indexed by the cursor: each call consumes one index.
- Thrown `Error`s / rejected validation are modelled with `Except CkError`.
-/

deriving instance DecidableEq for Except

namespace HFNF

/-- Failure taxonomy of the checkout pipeline.  `malformedRequest` models a
Zod schema rejection by `CheckoutBody.parse`; `unknownItem`/`invalidQuantity`
model the two `throw new Error(...)` sites in `sanitizeCart`; the last two
model non-ok responses from the two remote calls. -/
inductive CkError
  | malformedRequest
  | unknownItem (name : String)
  | invalidQuantity (name : String)
  | orderCreationFailed
  | paymentCaptureFailed
  deriving DecidableEq

/-- The built-in `defaultPriceBook` of `server.js` (canonical variant): the
authoritative item-name to unit-price-in-cents table. -/
def defaultPriceBook : List (String × ℕ) :=
  [("Chicken Over Rice", 999),
   ("Fish Over Rice", 999),
   ("Lamb And Chicken Over Rice", 1099),
   ("Lamb Over Rice", 1099),
   ("Chicken and Lamb Shawarma", 799),
   ("Chicken Shawarma", 799),
   ("Chicken Tikka Roll", 799),
   ("Kabab Roll", 799),
   ("Beef Burger", 699),
   ("Beef Burger Combo", 999),
   ("Chicken Burger", 599),
   ("Chicken Burger Combo", 899),
   ("Fish Burger", 599),
   ("Fish Burger Combo", 899),
   ("Zinger Burger", 599),
   ("Zinger Burger Combo", 899),
   ("Small Fries", 299),
   ("Medium Fries", 399),
   ("Large Fries", 499),
   ("Chicken Nuggets (5 pc)", 599),
   ("Chicken Nuggets Combo", 999),
   ("Chicken Tender (3 pc)", 599),
   ("Chicken Tender Combo", 999),
   ("16 OZ Mango Lassi", 399),
   ("16 OZ Sweet Lassi", 399),
   ("16 OZ Salt Lassi", 399),
   ("Soda Can", 150),
   ("Water Bottle", 100),
   ("BBQ Wings (5 pc)", 899),
   ("Buffalo Wings (5 pc)", 899),
   ("Garlic Parmesan Wings (5 pc)", 899),
   ("Chicken Kabab", 250),
   ("Chicken Tikka Boti (5 pc)", 699),
   ("Tandoor Chicken leg (1 pc)", 499),
   ("Tandoor Chicken leg (2 pc)", 899),
   ("Rice Pudding", 499),
   ("Perry\x27s Ice Cream (8 oz cup)", 499),
   ("Perry\x27s Cone", 200),
   ("Gulab Jamun (3 pc)", 399),
   ("Cheese Pizza (Small)", 999),
   ("Cheese Pizza (Medium)", 1299),
   ("Cheese Pizza (Large)", 1499),
   ("Cheese Pizza (Extra Large)", 1799),
   ("Veggie Pizza (Small)", 1199),
   ("Veggie Pizza (Medium)", 1499),
   ("Veggie Pizza (Large)", 1799),
   ("Veggie Pizza (Extra Large)", 2099),
   ("Buffalo Chicken Pizza (Small)", 1199),
   ("Buffalo Chicken Pizza (Medium)", 1499),
   ("Buffalo Chicken Pizza (Large)", 1799),
   ("Buffalo Chicken Pizza (Extra Large)", 2099),
   ("Pizza Topping (Small)", 100),
   ("Pizza Topping (Medium)", 150),
   ("Pizza Topping (Large)", 150),
   ("Pizza Topping (Extra Large)", 200)]

/-- `PRICE_BOOK[name]`: the Price Authority lookup. -/
def PRICE_BOOK (name : String) : Option ℕ :=
  defaultPriceBook.lookup name

/-- A raw cart line as posted by the client.  `qty` is `none` when the field
is missing (JS `undefined`); `clientPrice` is a client-declared unit price the
browser cart carries along (`priceCents` in `cart.js`) — the server never
reads it. -/
structure RawLine where
  name : String
  qty : Option ℚ
  clientPrice : Option ℚ
  deriving DecidableEq

/-- `Number.isInteger(qty) && qty > 0` of `sanitizeCart`, with a missing
quantity (`undefined`) failing `Number.isInteger`. -/
def qtyOk : Option ℚ → Bool
  | some q => q.den == 1 && decide (0 < q)
  | none => false

/-- A sanitized line: `{ name, qty, priceCents }` with the trusted price. -/
structure Item where
  name : String
  qty : ℚ
  priceCents : ℕ
  deriving DecidableEq

/-- The sanitized line `sanitizeCart` builds from a raw line once its checks
passed: same name and quantity, price looked up in the price book. -/
def line2item (pb : String → Option ℕ) (l : RawLine) : Item :=
  { name := l.name, qty := l.qty.getD 0, priceCents := (pb l.name).getD 0 }

/-- `sanitizeCart` of `server.js`: for each line, look the name up in the
price book (`throw Unknown item` when absent), then check the quantity is a
positive integer (`throw Bad qty`), and attach the trusted price.  `cart.map`
with `throw` aborts at the first failing line. -/
def sanitizeCart (pb : String → Option ℕ) : List RawLine → Except CkError (List Item)
  | [] => .ok []
  | l :: rest =>
    match pb l.name with
    | none => .error (.unknownItem l.name)
    | some _ =>
      if qtyOk l.qty then
        match sanitizeCart pb rest with
        | .error e => .error e
        | .ok items => .ok (line2item pb l :: items)
      else .error (.invalidQuantity l.name)

/-- `sumCents`: `items.reduce((s, i) => s + i.priceCents * i.qty, 0)`. -/
def sumCents (items : List Item) : ℚ :=
  items.foldl (fun s i => s + (i.priceCents : ℚ) * i.qty) 0

/-- Contact block of the request body. -/
structure Contact where
  name : String
  phone : String
  email : Option String
  deriving DecidableEq

/-- `z.enum(['pickup','delivery'])`. -/
inductive Fulfillment
  | pickup
  | delivery
  deriving DecidableEq, BEq

/-- `AddressTextOrObject`: a free-text address or a structured Square
address (`address_line_1`, `locality`, `administrative_district_level_1`,
`postal_code`, `country`). -/
inductive RawAddress
  | text (s : String)
  | structured (line1 : String) (locality region postalCode country : Option String)
  deriving DecidableEq

/-- The inbound JSON body of `POST /api/checkout`, before validation.
Optional JSON fields are `Option`s. -/
structure RawRequest where
  cart : List RawLine
  contact : Contact
  pickupTime : Option String
  fulfillment : Option Fulfillment
  address : Option RawAddress
  paymentToken : String
  deriving DecidableEq

/-- The body after `CheckoutBody.parse`: fulfillment defaulted to pickup,
cart lines validated (and stripped of unknown keys by Zod). -/
structure ParsedBody where
  cart : List RawLine
  contact : Contact
  pickupTime : Option String
  fulfillment : Fulfillment
  address : Option RawAddress
  paymentToken : String
  deriving DecidableEq

/-- The `min(1)` checks of `AddressTextOrObject`. -/
def addrOk : Option RawAddress → Bool
  | none => true
  | some (.text s) => decide (1 ≤ s.length)
  | some (.structured line1 _ _ _ _) => decide (1 ≤ line1.length)

/-- `CheckoutBody.parse`: Zod schema validation of the request body.  Every
cart quantity must be a positive integer (`z.number().int().positive()`),
contact name nonempty, phone at least 7 characters, address (when present)
with a nonempty line.  The `z.string().email()` format check on the optional
email is not modelled (no verified property depends on it).  On success Zod
returns the typed body, cart lines stripped to `{name, qty}`, fulfillment
defaulted to `'pickup'`. -/
def parseCheckoutBody (req : RawRequest) : Except CkError ParsedBody :=
  if req.cart.all (fun l => qtyOk l.qty)
      && decide (1 ≤ req.contact.name.length)
      && decide (7 ≤ req.contact.phone.length)
      && addrOk req.address then
    .ok { cart := req.cart.map (fun l => { l with clientPrice := none })
          contact := req.contact
          pickupTime := req.pickupTime
          fulfillment := req.fulfillment.getD .pickup
          address := req.address
          paymentToken := req.paymentToken }
  else .error .malformedRequest

/-- Recipient block shared by both fulfillment kinds. -/
structure Recipient where
  displayName : String
  phoneNumber : String
  emailAddress : Option String
  deriving DecidableEq

/-- The `mkRecipient` step: recipient is always the contact. -/
def mkRecipient (c : Contact) : Recipient :=
  { displayName := c.name, phoneNumber := c.phone, emailAddress := c.email }

/-- A normalized Square delivery address. -/
structure SqAddress where
  line1 : String
  locality : Option String
  region : Option String
  postalCode : Option String
  country : String
  deriving DecidableEq

/-- Address normalization in the delivery branch: free text becomes
`{address_line_1: text, country: 'US'}`; a structured address keeps its
fields with `country := body.address.country || 'US'` (JS falsy: absent or
empty country becomes `"US"`); no address gives `undefined`. -/
def normalizeAddress : Option RawAddress → Option SqAddress
  | none => none
  | some (.text s) =>
    some { line1 := s, locality := none, region := none, postalCode := none, country := "US" }
  | some (.structured line1 loc reg post country) =>
    some { line1 := line1, locality := loc, region := reg, postalCode := post,
           country := match country with
                      | some c => if c = "" then "US" else c
                      | none => "US" }

/-- `schedule_type` values. -/
inductive ScheduleType
  | ASAP
  | SCHEDULED
  deriving DecidableEq

/-- `pickup_details` of the fulfillment block. -/
structure PickupDetails where
  recipient : Recipient
  scheduleType : ScheduleType
  pickupAt : Option String
  deriving DecidableEq

/-- `delivery_details` of the fulfillment block. -/
structure DeliveryDetails where
  recipient : Recipient
  scheduleType : ScheduleType
  deliveryAddress : Option SqAddress
  deriving DecidableEq

/-- One entry of `orderObj.fulfillments`. -/
structure FulfillmentEntry where
  type : Fulfillment
  state : String
  pickupDetails : Option PickupDetails
  deliveryDetails : Option DeliveryDetails
  deriving DecidableEq

/-- JS truthiness of an optional string (`body.pickupTime ? ... : ...`). -/
def strTruthy : Option String → Bool
  | some s => decide (s ≠ "")
  | none => false

/-- The single fulfillment entry the checkout handler builds: delivery gets
`delivery_details` with `schedule_type: 'ASAP'` and the normalized address;
pickup gets `pickup_details` with `SCHEDULED` exactly when a (truthy) pickup
time was supplied, and `pickup_at` set to the supplied time. -/
def buildFulfillment (body : ParsedBody) : FulfillmentEntry :=
  if body.fulfillment == .delivery then
    { type := .delivery, state := "PROPOSED", pickupDetails := none,
      deliveryDetails := some
        { recipient := mkRecipient body.contact,
          scheduleType := .ASAP,
          deliveryAddress := normalizeAddress body.address } }
  else
    { type := .pickup, state := "PROPOSED",
      pickupDetails := some
        { recipient := mkRecipient body.contact,
          scheduleType := if strTruthy body.pickupTime then .SCHEDULED else .ASAP,
          pickupAt := body.pickupTime },
      deliveryDetails := none }

/-- One `line_items` entry: name, quantity and unit price in cents.  (The
code stringifies the quantity for the wire; the numeric value is modelled.) -/
structure LineItem where
  name : String
  quantity : ℚ
  amountCents : ℚ
  deriving DecidableEq

/-- Base line items from the sanitized cart, plus the `Delivery Fee` line
appended exactly when fulfilling by delivery with a positive fee. -/
def buildLineItems (items : List Item) (isDel : Bool) (fee : ℚ) : List LineItem :=
  items.map (fun i => { name := i.name, quantity := i.qty, amountCents := (i.priceCents : ℚ) })
    ++ (if isDel && decide (0 < fee) then
          [{ name := "Delivery Fee", quantity := 1, amountCents := fee }]
        else [])

/-- The order-scoped tax declaration added when the tax rate is positive. -/
structure TaxDecl where
  name : String
  type : String
  scope : String
  percentage : ℚ
  deriving DecidableEq

/-- `orderObj`: the order document submitted to the remote order service. -/
structure OrderObj where
  locationId : String
  lineItems : List LineItem
  taxes : Option TaxDecl
  fulfillments : List FulfillmentEntry
  deriving DecidableEq

/-- Assembly of `orderObj` from the parsed body and sanitized items. -/
def assembleOrder (loc : String) (rate fee : ℚ) (body : ParsedBody)
    (items : List Item) : OrderObj :=
  let isDel := body.fulfillment == .delivery
  { locationId := loc
    lineItems := buildLineItems items isDel fee
    taxes := if decide (0 < rate) then
               some { name := "Sales Tax", type := "ADDITIVE", scope := "ORDER",
                      percentage := rate }
             else none
    fulfillments := [buildFulfillment body] }

/-- `Math.round` on the exact rational value: round half toward positive
infinity. -/
def jsRound (x : ℚ) : ℤ :=
  ⌊x + 1 / 2⌋

/-- The three server-computed totals. -/
structure Totals where
  subtotalCents : ℚ
  taxCents : ℚ
  totalCents : ℚ
  deriving DecidableEq

/-- The totals block of the handler: subtotal = `sumCents(items)` plus the
delivery fee when delivering; tax = `Math.round(subtotal * rate / 100)` when
the rate is positive, else `0`; total = subtotal + tax. -/
def computeTotals (rate fee : ℚ) (isDel : Bool) (items : List Item) : Totals :=
  let subtotal := sumCents items + (if isDel then fee else 0)
  let tax : ℚ := if decide (0 < rate) then (jsRound (subtotal * (rate / 100)) : ℚ) else 0
  { subtotalCents := subtotal, taxCents := tax, totalCents := subtotal + tax }

/-- A call issued to the remote Square service.  The `idemKey` is the index
into the `crypto.randomUUID()` supply consumed for that call. -/
inductive RemoteCall
  | createOrder (idemKey : ℕ) (payload : OrderObj)
  | createPayment (idemKey : ℕ) (sourceId : String) (amountCents : ℚ) (orderId : String)
  deriving DecidableEq

/-- Oracle for the two remote responses of one checkout attempt. -/
structure RemoteEnv where
  orderOk : Bool
  orderId : String
  payOk : Bool
  paymentId : Option String
  deriving DecidableEq

/-- Terminal result of the handler: the 200 success body or the 400 failure. -/
inductive CheckoutResult
  | ok (orderId : String) (paymentId : Option String)
  | fail (e : CkError)
  deriving DecidableEq

/-- Outcome of one checkout attempt: the remote calls issued in order, the
terminal result, and the advanced idempotency-key cursor. -/
structure CheckoutOut where
  trace : List RemoteCall
  result : CheckoutResult
  nextKey : ℕ
  deriving DecidableEq

/-- The `POST /api/checkout` handler: parse the body, sanitize the cart,
assemble the order, submit it with a fresh idempotency key (index `n`); when
order creation succeeds, compute totals and submit the payment capture with a
second fresh key (index `n + 1`); any failure aborts with a 400.  Totals and
the payment payload are only built after order creation succeeded, exactly as
in the code. -/
def checkout (pb : String → Option ℕ) (loc : String) (rate fee : ℚ)
    (env : RemoteEnv) (n : ℕ) (req : RawRequest) : CheckoutOut :=
  match parseCheckoutBody req with
  | .error e => { trace := [], result := .fail e, nextKey := n }
  | .ok body =>
    match sanitizeCart pb body.cart with
    | .error e => { trace := [], result := .fail e, nextKey := n }
    | .ok items =>
      let isDel := body.fulfillment == .delivery
      let order := assembleOrder loc rate fee body items
      if env.orderOk then
        let totals := computeTotals rate fee isDel items
        let payCall := RemoteCall.createPayment (n + 1) body.paymentToken
          totals.totalCents env.orderId
        if env.payOk then
          { trace := [.createOrder n order, payCall],
            result := .ok env.orderId env.paymentId, nextKey := n + 2 }
        else
          { trace := [.createOrder n order, payCall],
            result := .fail .paymentCaptureFailed, nextKey := n + 2 }
      else
        { trace := [.createOrder n order],
          result := .fail .orderCreationFailed, nextKey := n + 1 }

/-- Number of payment-capture calls in a trace. -/
def countPayments : List RemoteCall → ℕ
  | [] => 0
  | .createPayment _ _ _ _ :: r => countPayments r + 1
  | .createOrder _ _ :: r => countPayments r

/-- The idempotency-key indices consumed by a trace, in order. -/
def traceKeys : List RemoteCall → List ℕ
  | [] => []
  | .createOrder k _ :: r => k :: traceKeys r
  | .createPayment k _ _ _ :: r => k :: traceKeys r

/-- Whether a remote call is an order creation whose delivery details carry no
delivery address. -/
def deliveryAddressMissing : RemoteCall → Bool
  | .createOrder _ o =>
    o.fulfillments.any (fun f => f.deliveryDetails.any (fun d => d.deliveryAddress == none))
  | .createPayment _ _ _ _ => false

/-- Demo contact used by concrete witnesses and counterexamples. -/
def demoContact : Contact :=
  { name := "Alice", phone := "5551234567", email := none }

/-- Demo well-formed cart: two orders of Small Fries (299 cents each). -/
def demoCartOk : List RawLine :=
  [{ name := "Small Fries", qty := some 2, clientPrice := none }]

/-- The sanitized form of `demoCartOk`. -/
def demoItems : List Item :=
  [{ name := "Small Fries", qty := 2, priceCents := 299 }]

/-- Demo pickup request. -/
def reqPickup : RawRequest :=
  { cart := demoCartOk, contact := demoContact, pickupTime := none,
    fulfillment := none, address := none, paymentToken := "tok" }

/-- Demo delivery request that supplies no address at all. -/
def reqDelivNoAddr : RawRequest :=
  { cart := demoCartOk, contact := demoContact, pickupTime := none,
    fulfillment := some .delivery, address := none, paymentToken := "tok" }

/-- The parsed body of `reqDelivNoAddr`. -/
def bodyDeliv : ParsedBody :=
  { cart := demoCartOk, contact := demoContact, pickupTime := none,
    fulfillment := .delivery, address := none, paymentToken := "tok" }

/-- The parsed body of `reqPickup`. -/
def bodyPickup : ParsedBody :=
  { cart := demoCartOk, contact := demoContact, pickupTime := none,
    fulfillment := .pickup, address := none, paymentToken := "tok" }

/-- Demo request whose only cart line has quantity zero. -/
def reqBadQty : RawRequest :=
  { cart := [{ name := "Small Fries", qty := some 0, clientPrice := none }],
    contact := demoContact, pickupTime := none, fulfillment := none,
    address := none, paymentToken := "tok" }

/-- Demo request whose only cart line names an item absent from the price
book. -/
def reqUnknown : RawRequest :=
  { cart := [{ name := "Unicorn Combo", qty := some 1, clientPrice := none }],
    contact := demoContact, pickupTime := none, fulfillment := none,
    address := none, paymentToken := "tok" }

/-- Oracle in which both remote calls succeed. -/
def envOk : RemoteEnv :=
  { orderOk := true, orderId := "ord1", payOk := true, paymentId := some "pay1" }

/-- Oracle in which order creation returns a non-success response. -/
def envOrderFail : RemoteEnv :=
  { orderOk := false, orderId := "ord1", payOk := true, paymentId := some "pay1" }

end HFNF

namespace HFNFClient

/-- A JavaScript value as it can reach the cart quantity parameters: a
(non-NaN) number, `NaN`, a string, or `undefined`. -/
inductive JSVal
  | num (q : ℚ)
  | nan
  | str (s : String)
  | undef
  deriving DecidableEq

/-- JS truthiness: `0`, `NaN`, `""` and `undefined` are falsy. -/
def truthy : JSVal → Bool
  | .num q => decide (q ≠ 0)
  | .nan => false
  | .str s => decide (s ≠ "")
  | .undef => false

/-- Leading decimal digits of a character list; `none` when there is no
leading digit (the `NaN` case of `parseInt`). -/
def parseDigits (cs : List Char) : Option ℕ :=
  let ds := cs.takeWhile Char.isDigit
  if ds.isEmpty then none
  else some (ds.foldl (fun a c => a * 10 + (c.toNat - 48)) 0)

/-- `parseInt(s, 10)`: skip leading whitespace, optional sign, then the
longest digit prefix; `NaN` (`none`) when no digits follow. -/
def parseIntStr (s : String) : Option ℤ :=
  let cs := s.data.dropWhile (fun c => c = ' ')
  match cs with
  | '-' :: rest => (parseDigits rest).map (fun d => -(d : ℤ))
  | '+' :: rest => (parseDigits rest).map (fun d => (d : ℤ))
  | _ => (parseDigits cs).map (fun d => (d : ℤ))

/-- Truncation toward zero, the value of `parseInt(String(q))` for a number
rendered in plain decimal notation. -/
def truncRat (q : ℚ) : ℤ :=
  if 0 ≤ q then ⌊q⌋ else -⌊-q⌋

/-- `parseInt(v, 10)` on a JS value: strings are parsed; numbers are
stringified and reparsed, which truncates toward zero; `NaN` and `undefined`
stringify without a digit prefix, giving `NaN`. -/
def jsParseInt : JSVal → Option ℤ
  | .str s => parseIntStr s
  | .num q => some (truncRat q)
  | .nan => none
  | .undef => none

/-- The quantity coercion `Math.max(1, parseInt(qty || "1", 10))` shared by
`addItem` and `setQty` of `cart.js`.  A falsy argument is replaced by the
string `"1"` first; `Math.max(1, NaN)` is `NaN`, modelled as `none`. -/
def coerceQty (v : JSVal) : Option ℤ :=
  let w := if truthy v then v else .str "1"
  match jsParseInt w with
  | none => none
  | some m => some (max 1 m)

/-- A stored client cart line; `qty = none` models a stored `NaN`. -/
structure ClientLine where
  name : String
  priceCents : ℚ
  qty : Option ℤ
  deriving DecidableEq

/-- JS addition where either side may be `NaN`. -/
def optAdd : Option ℤ → Option ℤ → Option ℤ
  | some a, some b => some (a + b)
  | _, _ => none

/-- `existing.qty += qty` applied to the first line with the given name. -/
def bumpFirst (name : String) (q : Option ℤ) : List ClientLine → List ClientLine
  | [] => []
  | i :: rest =>
    if i.name = name then { i with qty := optAdd i.qty q } :: rest
    else i :: bumpFirst name q rest

/-- `addItem(name, priceCents, qty)` of `cart.js`: coerce the quantity, then
either bump the first existing line with that name or push a new line. -/
def addItem (cart : List ClientLine) (name : String) (priceCents : ℚ)
    (qtyIn : JSVal) : List ClientLine :=
  let q := coerceQty qtyIn
  if cart.any (fun i => i.name == name) then bumpFirst name q cart
  else cart ++ [{ name := name, priceCents := priceCents, qty := q }]

/-- `setQty(index, qty)` of `cart.js`: coerce the quantity and overwrite the
line at `index` when it exists, else leave the cart unchanged. -/
def setQty (cart : List ClientLine) (index : ℕ) (qtyIn : JSVal) : List ClientLine :=
  let q := coerceQty qtyIn
  if h : index < cart.length then
    cart.set index { cart.get ⟨index, h⟩ with qty := q }
  else cart

end HFNFClient

namespace HFNF

/-! Helper lemmas about the cart sanitizer. -/

theorem qtyOk_some {q : Option ℚ} (h : qtyOk q = true) : ∃ x, q = some x := by
  cases q with
  | none => simp [qtyOk] at h
  | some x => exact ⟨x, rfl⟩

theorem sanitizeCart_ok_of_valid (pb : String → Option ℕ) :
    ∀ cart : List RawLine, (∀ l ∈ cart, (pb l.name).isSome ∧ qtyOk l.qty) →
      sanitizeCart pb cart = .ok (cart.map (line2item pb)) := by
  intro cart
  induction cart with
  | nil => intro _; rfl
  | cons l rest ih =>
    intro h
    obtain ⟨h1, h2⟩ := h l (List.mem_cons_self l rest)
    obtain ⟨p, hp⟩ := Option.isSome_iff_exists.mp h1
    have hr := ih (fun x hx => h x (List.mem_cons_of_mem l hx))
    simp [sanitizeCart, hp, h2, hr]

theorem sanitizeCart_ok_inv (pb : String → Option ℕ) :
    ∀ (cart : List RawLine) (out : List Item), sanitizeCart pb cart = .ok out →
      (∀ l ∈ cart, (pb l.name).isSome ∧ qtyOk l.qty) ∧ out = cart.map (line2item pb) := by
  intro cart
  induction cart with
  | nil =>
    intro out h
    simp only [sanitizeCart, Except.ok.injEq] at h
    simp [← h]
  | cons l rest ih =>
    intro out h
    simp only [sanitizeCart] at h
    cases hp : pb l.name with
    | none => rw [hp] at h; simp at h
    | some p =>
      rw [hp] at h
      by_cases hq : qtyOk l.qty = true
      · rw [if_pos hq] at h
        cases hs : sanitizeCart pb rest with
        | error e => rw [hs] at h; simp at h
        | ok items =>
          rw [hs] at h
          simp only [Except.ok.injEq] at h
          obtain ⟨hv, hout⟩ := ih items hs
          constructor
          · intro x hx
            rcases List.mem_cons.mp hx with hx1 | hx2
            · subst hx1; exact ⟨by simp [hp], hq⟩
            · exact hv x hx2
          · rw [← h, hout, List.map_cons]
      · rw [if_neg hq] at h; simp at h

theorem sanitizeCart_client_price_ignored (pb : String → Option ℕ) (f : RawLine → Option ℚ) :
    ∀ cart : List RawLine,
      sanitizeCart pb (cart.map (fun l => { l with clientPrice := f l }))
        = sanitizeCart pb cart := by
  intro cart
  induction cart with
  | nil => rfl
  | cons l rest ih =>
    obtain ⟨nm, q, cp⟩ := l
    simp only [List.map_cons, sanitizeCart, line2item, ih]

theorem sanitizeCart_firstUnknown (pb : String → Option ℕ) :
    ∀ (pre : List RawLine) (l : RawLine) (post : List RawLine),
      (∀ x ∈ pre, (pb x.name).isSome ∧ qtyOk x.qty) → pb l.name = none →
      sanitizeCart pb (pre ++ l :: post) = .error (.unknownItem l.name) := by
  intro pre
  induction pre with
  | nil => intro l post _ hl; simp [sanitizeCart, hl]
  | cons x rest ih =>
    intro l post hpre hl
    obtain ⟨h1, h2⟩ := hpre x (List.mem_cons_self x rest)
    obtain ⟨p, hp⟩ := Option.isSome_iff_exists.mp h1
    have hr := ih l post (fun y hy => hpre y (List.mem_cons_of_mem x hy)) hl
    simp [sanitizeCart, hp, h2, hr]

theorem line2item_spec (pb : String → Option ℕ) (cart : List RawLine)
    (hv : ∀ l ∈ cart, (pb l.name).isSome ∧ qtyOk l.qty) (i : ℕ) (hi : i < cart.length) :
    ∃ l o, cart[i]? = some l ∧ (cart.map (line2item pb))[i]? = some o ∧
      o.name = l.name ∧ some o.qty = l.qty ∧ pb l.name = some o.priceCents := by
  have hl : cart[i]? = some cart[i] := List.getElem?_eq_getElem hi
  have hmem : cart[i] ∈ cart := List.getElem_mem hi
  obtain ⟨h1, h2⟩ := hv _ hmem
  obtain ⟨p, hp⟩ := Option.isSome_iff_exists.mp h1
  obtain ⟨x, hx⟩ := qtyOk_some h2
  refine ⟨cart[i], line2item pb cart[i], hl, ?_, rfl, ?_, ?_⟩
  · rw [List.getElem?_map, hl]; rfl
  · simp [line2item, hx]
  · simp [line2item, hp]

/-- C2: for every cart in which every item name exists in the Price Authority
and every quantity is a positive integer, sanitization succeeds and returns
one line per cart entry whose unit price in cents equals the Price Authority
value for that line's name, independently of any client-supplied unit price. -/
theorem C2_sanitize_uses_authority_prices (pb : String → Option ℕ) (cart : List RawLine)
    (h : ∀ l ∈ cart, (pb l.name).isSome ∧ qtyOk l.qty) :
    ∃ out, sanitizeCart pb cart = .ok out ∧ out.length = cart.length ∧
      (∀ i, i < cart.length → ∃ l o, cart[i]? = some l ∧ out[i]? = some o ∧
        o.name = l.name ∧ some o.qty = l.qty ∧ pb l.name = some o.priceCents) ∧
      (∀ f : RawLine → Option ℚ,
        sanitizeCart pb (cart.map (fun l => { l with clientPrice := f l }))
          = sanitizeCart pb cart) :=
  ⟨cart.map (line2item pb), sanitizeCart_ok_of_valid pb cart h, by simp,
   fun i hi => line2item_spec pb cart h i hi,
   fun f => sanitizeCart_client_price_ignored pb f cart⟩

/-- Witness for C2 at a concrete valid cart. -/
theorem C2_witness :
    ∃ out, sanitizeCart PRICE_BOOK demoCartOk = .ok out ∧ out.length = demoCartOk.length ∧
      (∀ i, i < demoCartOk.length → ∃ l o, demoCartOk[i]? = some l ∧ out[i]? = some o ∧
        o.name = l.name ∧ some o.qty = l.qty ∧ PRICE_BOOK l.name = some o.priceCents) ∧
      (∀ f : RawLine → Option ℚ,
        sanitizeCart PRICE_BOOK (demoCartOk.map (fun l => { l with clientPrice := f l }))
          = sanitizeCart PRICE_BOOK demoCartOk) :=
  C2_sanitize_uses_authority_prices PRICE_BOOK demoCartOk (by decide)

/-- C10: for every cart on which sanitization succeeds, the output has the
same length and order as the input, each output line carries the input line's
name and quantity unchanged, and only the trusted unit price is added. -/
theorem C10_sanitize_preserves_shape (pb : String → Option ℕ) (cart : List RawLine)
    (out : List Item) (h : sanitizeCart pb cart = .ok out) :
    out.length = cart.length ∧
    ∀ i, i < cart.length → ∃ l o, cart[i]? = some l ∧ out[i]? = some o ∧
      o.name = l.name ∧ some o.qty = l.qty ∧ pb l.name = some o.priceCents := by
  obtain ⟨hv, rfl⟩ := sanitizeCart_ok_inv pb cart out h
  exact ⟨by simp, fun i hi => line2item_spec pb cart hv i hi⟩

/-- Witness for C10 at a concrete succeeding cart. -/
theorem C10_witness :
    demoItems.length = demoCartOk.length ∧
    ∀ i, i < demoCartOk.length → ∃ l o, demoCartOk[i]? = some l ∧ demoItems[i]? = some o ∧
      o.name = l.name ∧ some o.qty = l.qty ∧ PRICE_BOOK l.name = some o.priceCents :=
  C10_sanitize_preserves_shape PRICE_BOOK demoCartOk demoItems (by decide)

/-- Inversion of a successful Zod parse: all quantities were positive
integers and the parsed body is the stripped, defaulted request. -/
theorem parseCheckoutBody_ok_inv (req : RawRequest) (body : ParsedBody)
    (h : parseCheckoutBody req = .ok body) :
    req.cart.all (fun l => qtyOk l.qty) = true ∧
    body.cart = req.cart.map (fun l => { l with clientPrice := none }) ∧
    body.contact = req.contact ∧
    body.pickupTime = req.pickupTime ∧
    body.fulfillment = req.fulfillment.getD .pickup ∧
    body.address = req.address ∧
    body.paymentToken = req.paymentToken := by
  unfold parseCheckoutBody at h
  by_cases hc : (req.cart.all (fun l => qtyOk l.qty)
      && decide (1 ≤ req.contact.name.length)
      && decide (7 ≤ req.contact.phone.length)
      && addrOk req.address) = true
  · rw [if_pos hc] at h
    simp only [Except.ok.injEq] at h
    subst h
    refine ⟨?_, rfl, rfl, rfl, rfl, rfl, rfl⟩
    simp only [Bool.and_eq_true] at hc
    exact hc.1.1.1
  · rw [if_neg hc] at h
    simp at h

/-- C5 counterexample: a cart that contains a name absent from the Price
Authority (`Unicorn Combo`) but whose earlier line has an invalid quantity is
rejected with `InvalidQuantity` for the earlier line, not with `UnknownItem`
at the unknown line. -/
theorem C5_counterexample :
    (∃ l ∈ ([{ name := "Small Fries", qty := some 0, clientPrice := none },
             { name := "Unicorn Combo", qty := some 1, clientPrice := none }] : List RawLine),
       PRICE_BOOK l.name = none) ∧
    sanitizeCart PRICE_BOOK
        [{ name := "Small Fries", qty := some 0, clientPrice := none },
         { name := "Unicorn Combo", qty := some 1, clientPrice := none }]
      = .error (.invalidQuantity "Small Fries") := by
  constructor
  · exact ⟨{ name := "Unicorn Combo", qty := some 1, clientPrice := none },
      by decide, by decide⟩
  · decide

/-- C5 (amended): for every cart containing at least one name absent from
the Price Authority, no remote call is made and the checkout fails
(unconditionally); and when every line preceding the first such unknown-name
line has a known name and a positive integer quantity, sanitization fails
with `UnknownItem` naming that first unknown line. -/
theorem C5_unknown_item_no_remote_call (pb : String → Option ℕ) (loc : String)
    (rate fee : ℚ) (env : RemoteEnv) (n : ℕ) (req : RawRequest) :
    ((∃ l ∈ req.cart, pb l.name = none) →
       (checkout pb loc rate fee env n req).trace = [] ∧
       ∃ e, (checkout pb loc rate fee env n req).result = .fail e) ∧
    (∀ (pre post : List RawLine) (l : RawLine),
       req.cart = pre ++ l :: post →
       (∀ x ∈ pre, (pb x.name).isSome ∧ qtyOk x.qty) →
       pb l.name = none →
       sanitizeCart pb req.cart = .error (.unknownItem l.name)) := by
  constructor
  · rintro ⟨l, hmem, hl⟩
    have hnotok : ∀ out, ¬ sanitizeCart pb req.cart = .ok out := by
      intro out hok
      obtain ⟨hv, -⟩ := sanitizeCart_ok_inv pb req.cart out hok
      have h1 := (hv l hmem).1
      rw [hl] at h1
      simp at h1
    cases hs : sanitizeCart pb req.cart with
    | ok out => exact absurd hs (hnotok out)
    | error e =>
      cases hb : parseCheckoutBody req with
      | error e2 =>
        have hck : checkout pb loc rate fee env n req =
            { trace := [], result := .fail e2, nextKey := n } := by
          simp only [checkout, hb]
        rw [hck]
        exact ⟨rfl, e2, rfl⟩
      | ok body =>
        have hcart : body.cart = req.cart.map (fun x => { x with clientPrice := none }) :=
          (parseCheckoutBody_ok_inv req body hb).2.1
        have hbody : sanitizeCart pb body.cart = .error e := by
          rw [hcart, sanitizeCart_client_price_ignored pb _ req.cart, hs]
        have hck : checkout pb loc rate fee env n req =
            { trace := [], result := .fail e, nextKey := n } := by
          simp only [checkout, hb, hbody]
        rw [hck]
        exact ⟨rfl, e, rfl⟩
  · intro pre post l hsplit hpre hl
    rw [hsplit]
    exact sanitizeCart_firstUnknown pb pre l post hpre hl

/-- Witness for C5 (amended): the unconditional no-remote-call clause and the
first-unknown clause, both at a concrete cart with an unknown item. -/
theorem C5_witness :
    ((checkout PRICE_BOOK "LOC" 8 0 envOk 0 reqUnknown).trace = [] ∧
     ∃ e, (checkout PRICE_BOOK "LOC" 8 0 envOk 0 reqUnknown).result = .fail e) ∧
    sanitizeCart PRICE_BOOK reqUnknown.cart = .error (.unknownItem "Unicorn Combo") :=
  ⟨(C5_unknown_item_no_remote_call PRICE_BOOK "LOC" 8 0 envOk 0 reqUnknown).1
     ⟨{ name := "Unicorn Combo", qty := some 1, clientPrice := none },
       by decide, by decide⟩,
   (C5_unknown_item_no_remote_call PRICE_BOOK "LOC" 8 0 envOk 0 reqUnknown).2
     [] [] { name := "Unicorn Combo", qty := some 1, clientPrice := none }
     rfl (by decide) (by decide)⟩

/-- C6 counterexample: a checkout request whose only cart line has quantity
zero is rejected by the schema-validation stage with `MalformedRequest`;
sanitization is not the stage that fails and `InvalidQuantity` is not the
reported error. -/
theorem C6_counterexample :
    (checkout PRICE_BOOK "LOC" 8 0 envOk 0 reqBadQty).result = .fail .malformedRequest ∧
    (checkout PRICE_BOOK "LOC" 8 0 envOk 0 reqBadQty).result
      ≠ .fail (.invalidQuantity "Small Fries") ∧
    (checkout PRICE_BOOK "LOC" 8 0 envOk 0 reqBadQty).trace = [] := by
  decide

/-- C6 (amended): a cart line whose quantity is zero, negative, non-integer
or missing is rejected by the request-shape validation with
`MalformedRequest` before sanitization runs and before any remote call;
`sanitizeCart` itself fails with `InvalidQuantity` on such a line only when
invoked directly on a cart that bypassed schema validation (its quantity
check is unreachable through the endpoint). -/
theorem C6_invalid_quantity_rejected_at_schema :
    (∀ (pb : String → Option ℕ) (loc : String) (rate fee : ℚ) (env : RemoteEnv)
       (n : ℕ) (req : RawRequest), (∃ l ∈ req.cart, qtyOk l.qty = false) →
       (checkout pb loc rate fee env n req).result = .fail .malformedRequest ∧
       (checkout pb loc rate fee env n req).trace = []) ∧
    (∀ (pb : String → Option ℕ) (name : String) (q cp : Option ℚ)
       (rest : List RawLine) (p : ℕ), pb name = some p → qtyOk q = false →
       sanitizeCart pb ({ name := name, qty := q, clientPrice := cp } :: rest)
         = .error (.invalidQuantity name)) := by
  constructor
  · rintro pb loc rate fee env n req ⟨l, hmem, hbad⟩
    have hall : req.cart.all (fun l => qtyOk l.qty) = false := by
      rw [List.all_eq_false]
      exact ⟨l, hmem, by simp [hbad]⟩
    have hparse : parseCheckoutBody req = .error .malformedRequest := by
      unfold parseCheckoutBody
      rw [if_neg]
      simp [hall]
    constructor <;> simp [checkout, hparse]
  · intro pb name q cp rest p hp hq
    simp [sanitizeCart, hp, hq]

/-- Witness for C6 (amended) at the concrete zero-quantity request. -/
theorem C6_witness :
    ((checkout PRICE_BOOK "LOC" 8 0 envOk 0 reqBadQty).result = .fail .malformedRequest ∧
     (checkout PRICE_BOOK "LOC" 8 0 envOk 0 reqBadQty).trace = []) ∧
    sanitizeCart PRICE_BOOK
        [({ name := "Small Fries", qty := some 0, clientPrice := none } : RawLine)]
      = .error (.invalidQuantity "Small Fries") :=
  ⟨C6_invalid_quantity_rejected_at_schema.1 PRICE_BOOK "LOC" 8 0 envOk 0 reqBadQty
      ⟨{ name := "Small Fries", qty := some 0, clientPrice := none }, by decide, by decide⟩,
   C6_invalid_quantity_rejected_at_schema.2 PRICE_BOOK "Small Fries" (some 0) none [] 299
      (by decide) (by decide)⟩

/-- Shape of a checkout whose parse and sanitize stages succeeded: the order
call always goes out with key `n`; the payment call exists exactly when order
creation succeeded, carries key `n + 1` and the server-computed total. -/
theorem checkout_eq_of_ok (pb : String → Option ℕ) (loc : String) (rate fee : ℚ)
    (env : RemoteEnv) (n : ℕ) (req : RawRequest) (body : ParsedBody) (items : List Item)
    (hb : parseCheckoutBody req = .ok body)
    (hs : sanitizeCart pb body.cart = .ok items) :
    checkout pb loc rate fee env n req =
      if env.orderOk then
        { trace := [.createOrder n (assembleOrder loc rate fee body items),
                    .createPayment (n + 1) body.paymentToken
                      (computeTotals rate fee (body.fulfillment == .delivery) items).totalCents
                      env.orderId],
          result := if env.payOk then .ok env.orderId env.paymentId
                    else .fail .paymentCaptureFailed,
          nextKey := n + 2 }
      else
        { trace := [.createOrder n (assembleOrder loc rate fee body items)],
          result := .fail .orderCreationFailed, nextKey := n + 1 } := by
  simp only [checkout, hb, hs]
  cases env.orderOk <;> cases env.payOk <;> simp

/-- C1: payment capture is attempted only after order creation succeeded: if
the order-creation response is a failure the checkout terminates as a failure
with zero payment-capture calls, and whenever a payment-capture call appears
in the trace, order creation succeeded and the trace is exactly the
order-creation call followed by the payment-capture call. -/
theorem C1_no_payment_without_order (pb : String → Option ℕ) (loc : String)
    (rate fee : ℚ) (env : RemoteEnv) (n : ℕ) (req : RawRequest) :
    (env.orderOk = false →
       countPayments (checkout pb loc rate fee env n req).trace = 0 ∧
       ∃ e, (checkout pb loc rate fee env n req).result = .fail e) ∧
    (0 < countPayments (checkout pb loc rate fee env n req).trace →
       env.orderOk = true ∧
       ∃ o k tok amt oid, (checkout pb loc rate fee env n req).trace
         = [.createOrder n o, .createPayment k tok amt oid]) := by
  cases hb : parseCheckoutBody req with
  | error e =>
    have hck : checkout pb loc rate fee env n req =
        { trace := [], result := .fail e, nextKey := n } := by
      simp only [checkout, hb]
    rw [hck]
    simp [countPayments]
  | ok body =>
    cases hs : sanitizeCart pb body.cart with
    | error e =>
      have hck : checkout pb loc rate fee env n req =
          { trace := [], result := .fail e, nextKey := n } := by
        simp only [checkout, hb, hs]
      rw [hck]
      simp [countPayments]
    | ok items =>
      rw [checkout_eq_of_ok pb loc rate fee env n req body items hb hs]
      cases ho : env.orderOk with
      | false => simp [countPayments]
      | true =>
        refine ⟨fun hcon => Bool.noConfusion hcon, fun _ => ⟨rfl, ?_⟩⟩
        refine ⟨assembleOrder loc rate fee body items, n + 1, body.paymentToken,
          (computeTotals rate fee (body.fulfillment == .delivery) items).totalCents,
          env.orderId, ?_⟩
        simp

/-- Witness for C1: with a failing order-creation oracle on a concrete valid
request, no payment call is issued and the result is a failure. -/
theorem C1_witness :
    countPayments (checkout PRICE_BOOK "LOC" 8 0 envOrderFail 0 reqPickup).trace = 0 ∧
    ∃ e, (checkout PRICE_BOOK "LOC" 8 0 envOrderFail 0 reqPickup).result = .fail e :=
  (C1_no_payment_without_order PRICE_BOOK "LOC" 8 0 envOrderFail 0 reqPickup).1 rfl

/-- C4 counterexample: a schema-valid delivery request that supplies no
address is not rejected — the checkout succeeds end to end, two remote calls
are made, and the submitted order-creation payload carries delivery details
with no delivery address. -/
theorem C4_counterexample :
    (checkout PRICE_BOOK "LOC" 8 300 envOk 0 reqDelivNoAddr).result
      = .ok "ord1" (some "pay1") ∧
    (checkout PRICE_BOOK "LOC" 8 300 envOk 0 reqDelivNoAddr).trace.length = 2 ∧
    ((checkout PRICE_BOOK "LOC" 8 300 envOk 0 reqDelivNoAddr).trace.map
        deliveryAddressMissing).head? = some true := by
  decide

/-- C4 (amended): the server performs no delivery-address check — for every
schema-valid delivery request with no address whose cart sanitizes, the
remote order-creation call is issued and its payload's single fulfillment
carries delivery details whose delivery address is absent (there is no
MissingDeliveryAddress failure; address enforcement is left to the
front-end). -/
theorem C4_no_missing_address_failure (pb : String → Option ℕ) (loc : String)
    (rate fee : ℚ) (env : RemoteEnv) (n : ℕ) (req : RawRequest) (body : ParsedBody)
    (items : List Item)
    (hb : parseCheckoutBody req = .ok body)
    (hf : body.fulfillment = .delivery)
    (ha : body.address = none)
    (hs : sanitizeCart pb body.cart = .ok items) :
    (checkout pb loc rate fee env n req).trace.head?
      = some (.createOrder n (assembleOrder loc rate fee body items)) ∧
    (assembleOrder loc rate fee body items).fulfillments
      = [{ type := .delivery, state := "PROPOSED", pickupDetails := none,
           deliveryDetails := some
             { recipient := mkRecipient body.contact,
               scheduleType := .ASAP, deliveryAddress := none } }] := by
  constructor
  · rw [checkout_eq_of_ok pb loc rate fee env n req body items hb hs]
    cases env.orderOk <;> simp
  · simp [assembleOrder, buildFulfillment, hf, ha, normalizeAddress]
    rfl

/-- Witness for C4 (amended) at the concrete address-less delivery request. -/
theorem C4_witness :
    (checkout PRICE_BOOK "LOC" 8 300 envOk 0 reqDelivNoAddr).trace.head?
      = some (.createOrder 0 (assembleOrder "LOC" 8 300 bodyDeliv demoItems)) ∧
    (assembleOrder "LOC" 8 300 bodyDeliv demoItems).fulfillments
      = [{ type := .delivery, state := "PROPOSED", pickupDetails := none,
           deliveryDetails := some
             { recipient := mkRecipient bodyDeliv.contact,
               scheduleType := .ASAP, deliveryAddress := none } }] :=
  C4_no_missing_address_failure PRICE_BOOK "LOC" 8 300 envOk 0 reqDelivNoAddr
    bodyDeliv demoItems (by decide) rfl rfl (by decide)

/-- The key indices a checkout consumes are pairwise distinct, start at the
attempt's cursor, and lie strictly below the returned cursor (which never
moves backwards). -/
theorem checkout_keys (pb : String → Option ℕ) (loc : String) (rate fee : ℚ)
    (env : RemoteEnv) (n : ℕ) (req : RawRequest) :
    (traceKeys (checkout pb loc rate fee env n req).trace).Nodup ∧
    n ≤ (checkout pb loc rate fee env n req).nextKey ∧
    ∀ k ∈ traceKeys (checkout pb loc rate fee env n req).trace,
      n ≤ k ∧ k < (checkout pb loc rate fee env n req).nextKey := by
  cases hb : parseCheckoutBody req with
  | error e =>
    have hck : checkout pb loc rate fee env n req =
        { trace := [], result := .fail e, nextKey := n } := by
      simp only [checkout, hb]
    rw [hck]
    simp [traceKeys]
  | ok body =>
    cases hs : sanitizeCart pb body.cart with
    | error e =>
      have hck : checkout pb loc rate fee env n req =
          { trace := [], result := .fail e, nextKey := n } := by
        simp only [checkout, hb, hs]
      rw [hck]
      simp [traceKeys]
    | ok items =>
      rw [checkout_eq_of_ok pb loc rate fee env n req body items hb hs]
      cases env.orderOk <;> simp [traceKeys]

/-- C8: with an injective idempotency-key supply (the model of
`crypto.randomUUID`), the keys consumed within one checkout attempt are
pairwise distinct (the order-creation and payment-capture keys are two fresh
keys), and no key of a first attempt recurs in a second attempt that starts
at the first attempt's returned cursor — even for identical requests. -/
theorem C8_idempotency_keys_fresh {K : Type} (uuid : ℕ → K)
    (hinj : Function.Injective uuid) (pb : String → Option ℕ) (loc : String)
    (rate fee : ℚ) (env env2 : RemoteEnv) (n : ℕ) (req req2 : RawRequest) :
    ((traceKeys (checkout pb loc rate fee env n req).trace).map uuid).Nodup ∧
    ∀ a ∈ (traceKeys (checkout pb loc rate fee env n req).trace).map uuid,
      a ∉ (traceKeys (checkout pb loc rate fee env2
            (checkout pb loc rate fee env n req).nextKey req2).trace).map uuid := by
  obtain ⟨hnd, -, hbound⟩ := checkout_keys pb loc rate fee env n req
  obtain ⟨-, -, hbound2⟩ := checkout_keys pb loc rate fee env2
    (checkout pb loc rate fee env n req).nextKey req2
  constructor
  · exact hnd.map (fun _ _ h => hinj h)
  · rintro a ha hcon
    obtain ⟨k1, hk1, rfl⟩ := List.mem_map.mp ha
    obtain ⟨k2, hk2, hk2e⟩ := List.mem_map.mp hcon
    have e12 : k2 = k1 := hinj hk2e
    have h1 := (hbound k1 hk1).2
    have h2 := (hbound2 k2 hk2).1
    omega

/-- Witness for C8 with the identity key supply on two identical concrete
attempts. -/
theorem C8_witness :
    ((traceKeys (checkout PRICE_BOOK "LOC" 8 0 envOk 0 reqPickup).trace).map
        (fun k => k)).Nodup ∧
    ∀ a ∈ (traceKeys (checkout PRICE_BOOK "LOC" 8 0 envOk 0 reqPickup).trace).map
        (fun k => k),
      a ∉ (traceKeys (checkout PRICE_BOOK "LOC" 8 0 envOk
            (checkout PRICE_BOOK "LOC" 8 0 envOk 0 reqPickup).nextKey
            reqPickup).trace).map (fun k => k) :=
  C8_idempotency_keys_fresh (fun k => k) (fun _ _ h => h) PRICE_BOOK "LOC" 8 0
    envOk envOk 0 reqPickup reqPickup

/-- The fold of `sumCents` equals the sum of per-line extended prices. -/
theorem sumCents_eq_sum (items : List Item) :
    sumCents items = (items.map (fun i => (i.priceCents : ℚ) * i.qty)).sum := by
  have h : ∀ (l : List Item) (s : ℚ),
      l.foldl (fun a i => a + (i.priceCents : ℚ) * i.qty) s
        = s + (l.map (fun i => (i.priceCents : ℚ) * i.qty)).sum := by
    intro l
    induction l with
    | nil => intro s; simp
    | cons x xs ih => intro s; simp [List.foldl_cons, ih, List.map_cons]; ring
  simpa [sumCents] using h items 0

/-- C3: for every sanitized cart, fulfillment kind and nonnegative tax rate
and delivery fee, the subtotal is the sum of unit price times quantity over
the lines plus the delivery fee when delivering; the tax is the half-up
rounding of subtotal times rate over 100 and is exactly 0 at rate 0; the
total is subtotal plus tax; and the spec's delivery example gives base 898,
tax 72, total 970. -/
theorem C3_totals_formula (rate fee : ℚ) (isDel : Bool) (items : List Item)
    (hrate : 0 ≤ rate) (_hfee : 0 ≤ fee) :
    (computeTotals rate fee isDel items).subtotalCents
        = (items.map (fun i => (i.priceCents : ℚ) * i.qty)).sum
          + (if isDel then fee else 0) ∧
    (computeTotals rate fee isDel items).taxCents
        = (jsRound ((computeTotals rate fee isDel items).subtotalCents * (rate / 100)) : ℚ) ∧
    (rate = 0 → (computeTotals rate fee isDel items).taxCents = 0) ∧
    (computeTotals rate fee isDel items).totalCents
        = (computeTotals rate fee isDel items).subtotalCents
          + (computeTotals rate fee isDel items).taxCents ∧
    computeTotals 8 300 true demoItems
      = { subtotalCents := 898, taxCents := 72, totalCents := 970 } := by
  refine ⟨?_, ?_, ?_, ?_, ?_⟩
  · simp [computeTotals, sumCents_eq_sum]
  · by_cases h : 0 < rate
    · simp [computeTotals, h]
    · have h0 : rate = 0 := le_antisymm (not_lt.mp h) hrate
      subst h0
      simp [computeTotals, jsRound]
      norm_num
  · intro h0; subst h0; simp [computeTotals]
  · simp [computeTotals]
  · simp only [computeTotals, Totals.mk.injEq]
    norm_num [sumCents, demoItems, jsRound, List.foldl_cons, List.foldl_nil]

/-- Witness for C3: the rate-zero clause and the delivery example, from the
theorem at concrete inputs. -/
theorem C3_witness :
    (computeTotals 0 300 true demoItems).taxCents = 0 ∧
    computeTotals 8 300 true demoItems
      = { subtotalCents := 898, taxCents := 72, totalCents := 970 } :=
  ⟨(C3_totals_formula 0 300 true demoItems (le_refl 0) (by norm_num)).2.2.1 rfl,
   (C3_totals_formula 8 300 true demoItems (by norm_num) (by norm_num)).2.2.2.2⟩

/-- The fulfillment entry in the pickup branch. -/
theorem buildFulfillment_pickup (body : ParsedBody) (hf : body.fulfillment = .pickup) :
    buildFulfillment body =
      { type := .pickup, state := "PROPOSED",
        pickupDetails := some
          { recipient := mkRecipient body.contact,
            scheduleType := if strTruthy body.pickupTime then .SCHEDULED else .ASAP,
            pickupAt := body.pickupTime },
        deliveryDetails := none } := by
  simp only [buildFulfillment, hf]
  rfl

/-- The fulfillment entry in the delivery branch. -/
theorem buildFulfillment_delivery (body : ParsedBody) (hf : body.fulfillment = .delivery) :
    buildFulfillment body =
      { type := .delivery, state := "PROPOSED", pickupDetails := none,
        deliveryDetails := some
          { recipient := mkRecipient body.contact, scheduleType := .ASAP,
            deliveryAddress := normalizeAddress body.address } } := by
  simp only [buildFulfillment, hf]
  rfl

/-- C7: every assembled order has exactly one fulfillment block; for pickup
the schedule is SCHEDULED with the supplied pickup time when a (nonempty)
time was given and ASAP when none was given, and delivery details are
absent; for delivery the schedule is always ASAP with the normalized address
and pickup details are absent; free-text addresses normalize to line1 plus
country US, and structured addresses keep their fields with country
defaulting to US when absent. -/
theorem C7_fulfillment_assembly (loc : String) (rate fee : ℚ) (body : ParsedBody)
    (items : List Item) :
    (assembleOrder loc rate fee body items).fulfillments.length = 1 ∧
    (∀ e ∈ (assembleOrder loc rate fee body items).fulfillments,
      (body.fulfillment = .pickup →
        e.type = .pickup ∧ e.deliveryDetails = none ∧
        (body.pickupTime = none →
          e.pickupDetails = some
            { recipient := mkRecipient body.contact,
              scheduleType := .ASAP, pickupAt := none }) ∧
        (∀ t, body.pickupTime = some t → t ≠ "" →
          e.pickupDetails = some
            { recipient := mkRecipient body.contact,
              scheduleType := .SCHEDULED, pickupAt := some t })) ∧
      (body.fulfillment = .delivery →
        e.type = .delivery ∧ e.pickupDetails = none ∧
        e.deliveryDetails = some
          { recipient := mkRecipient body.contact,
            scheduleType := .ASAP,
            deliveryAddress := normalizeAddress body.address })) ∧
    (∀ s, normalizeAddress (some (.text s))
        = some { line1 := s, locality := none, region := none,
                 postalCode := none, country := "US" }) ∧
    (∀ l1 lc reg post, normalizeAddress (some (.structured l1 lc reg post none))
        = some { line1 := l1, locality := lc, region := reg,
                 postalCode := post, country := "US" }) ∧
    (∀ l1 lc reg post c, c ≠ "" →
        normalizeAddress (some (.structured l1 lc reg post (some c)))
          = some { line1 := l1, locality := lc, region := reg,
                   postalCode := post, country := c }) := by
  refine ⟨by simp [assembleOrder], ?_, fun s => rfl, fun l1 lc reg post => rfl, ?_⟩
  · intro e he
    simp only [assembleOrder, List.mem_singleton] at he
    subst he
    constructor
    · intro hf
      rw [buildFulfillment_pickup body hf]
      refine ⟨rfl, rfl, fun hpt => by simp [hpt, strTruthy], fun t hpt hne => ?_⟩
      rw [hpt]
      simp [strTruthy, hne]
    · intro hf
      rw [buildFulfillment_delivery body hf]
      exact ⟨rfl, rfl, rfl⟩
  · intro l1 lc reg post c hc
    simp [normalizeAddress, hc]

/-- Witness for C7 at a concrete pickup body with no pickup time. -/
theorem C7_witness :
    (assembleOrder "LOC" 8 0 bodyPickup demoItems).fulfillments.length = 1 ∧
    ∀ e ∈ (assembleOrder "LOC" 8 0 bodyPickup demoItems).fulfillments,
      e.type = .pickup ∧ e.deliveryDetails = none ∧
      e.pickupDetails = some
        { recipient := mkRecipient bodyPickup.contact,
          scheduleType := .ASAP, pickupAt := none } :=
  ⟨(C7_fulfillment_assembly "LOC" 8 0 bodyPickup demoItems).1,
   fun e he =>
     have h := ((C7_fulfillment_assembly "LOC" 8 0 bodyPickup demoItems).2.1 e he).1 rfl
     ⟨h.1, h.2.1, h.2.2.1 rfl⟩⟩

end HFNF

namespace HFNFClient

/-- C9 (code bug): the client cart's quantity coercion
`Math.max(1, parseInt(qty || "1", 10))` stores NaN for a truthy non-numeric
string such as "abc" (`parseInt` gives NaN and `Math.max(1, NaN)` is NaN), so
`addItem` and `setQty` store a quantity that is neither an integer nor at
least 1; falsy invalid input (such as `undefined`) does default to 1. -/
theorem C9_nan_quantity_stored :
    coerceQty (.str "abc") = none ∧
    coerceQty .undef = some 1 ∧
    addItem [] "X" 100 (.str "abc")
      = [{ name := "X", priceCents := 100, qty := none }] ∧
    setQty [{ name := "X", priceCents := 100, qty := some 1 }] 0 (.str "abc")
      = [{ name := "X", priceCents := 100, qty := none }] := by
  decide

end HFNFClient
